import Mathlib

/-!
Verification of the PDB record codec layer of the `pdb2cif` repository
against its natural-language specification.

The Python sources are shallowly embedded: Python strings become Lean
`String`s manipulated through list-based helpers that reproduce Python's
slicing, stripping and `format`-spec padding semantics; fallible code
(`int(...)`, `float(...)`, raised exceptions) becomes `Option`/`Except`;
class instances become structures; mutation becomes explicit state passing.
Real-valued record fields are carried as exact decimal numbers, since the
only aspects of them the codecs depend on are decimal parsing and
fixed-precision decimal rendering.

Sources embedded here (paths relative to the repository root):
  * `pdb2cif/general.py` (`atom_format`, `date_parse`, `date_format`,
    `grouper`),
  * `pdb2cif/annotation.py` (`Compound`, `Caveat`, `Site`/`SpecificSite`,
    `Split`),
  * `pdb2cif/secondary.py` (`Link`),
  * `pdb2cif/coordinates.py` (`Atom.__str__`, `HeterogenAtom.__str__`),
  * `pdb_old_format/pdb_entry.py` (`Entry` and its methods),
  * `pdb_old_format/coordinates.py` (`Chain`, `Model`, `Atom`,
    `TemperatureFactor`, `ChainTerminus`),
  * `old_pdb/annotation.py` (`Header`, `NumModels` — byte-identical to the
    `pdb2cif` variants of these classes) and `old_pdb/crystallography.py`
    (`FractionalTransform`), standing in for the `pdb_old_format` modules
    of the same name that are absent from the source tree.
Record classes whose defining module is absent from the source tree in
every variant (`bookkeeping.py`, and the annotation/primary/heterogen/
secondary codecs as used by `pdb_old_format`) are modelled from the spec
where needed; each such definition carries a doc comment saying so.
-/

/-! ## Python string primitives -/

/-- Python `str.strip()` restricted to ASCII whitespace: drop whitespace
characters from both ends of the string. -/
def pyStrip (s : String) : String :=
  ⟨(s.data.dropWhile Char.isWhitespace).reverse.dropWhile Char.isWhitespace |>.reverse⟩

/-- Python `str.rstrip("\r\n")`: drop carriage returns and newlines from the
right end only. -/
def pyStripRN (s : String) : String :=
  ⟨(s.data.reverse.dropWhile fun c => c = '\r' ∨ c = '\n').reverse⟩

/-- Python `str.rstrip()` restricted to ASCII whitespace: drop whitespace
from the right end, the per-line trim of the spec's round-trip property. -/
def pyRStrip (s : String) : String :=
  ⟨(s.data.reverse.dropWhile Char.isWhitespace).reverse⟩

/-- Python slice `s[a:b]` for `0 ≤ a ≤ b` (character based, clamped at the
string's length, never raising). -/
def pySlice (s : String) (a b : Nat) : String :=
  ⟨(s.data.drop a).take (b - a)⟩

/-- Python prefix slice `s[:n]`. -/
def pyTake (s : String) (n : Nat) : String :=
  ⟨s.data.take n⟩

/-- Python single-character subscript `s[i]`, `none` when the index is out of
range (Python raises `IndexError` there). -/
def pyAt (s : String) (i : Nat) : Option Char :=
  s.data.get? i

/-- Python format spec `{s:<w}` (also the default `{s:w}` for strings):
left-justify to a minimum width `w` by appending spaces. -/
def pyLJ (w : Nat) (s : String) : String :=
  s ++ ⟨List.replicate (w - s.length) ' '⟩

/-- Python format spec `{s:>w}`: right-justify to a minimum width `w` by
prepending spaces. -/
def pyRJ (w : Nat) (s : String) : String :=
  ⟨List.replicate (w - s.length) ' '⟩ ++ s

/-- Python format spec `{n:w}` for an integer: right-justify its decimal
rendering to a minimum width `w`. -/
def intRJ (w : Nat) (n : Int) : String :=
  pyRJ w (toString n)

/-- Python format spec `{n:<w}` for an integer: left-justify its decimal
rendering to a minimum width `w`. -/
def intLJ (w : Nat) (n : Int) : String :=
  pyLJ w (toString n)

/-- Aid for building Python `"\n".join(strings)` (structural recursion so
that closed instances evaluate inside the kernel). -/
def joinNL : List String → String
  | [] => ""
  | [s] => s
  | s :: rest => s ++ "\n" ++ joinNL rest

/-- Split a character list at every occurrence of the separator character;
helper for `splitChar`. -/
def splitCharAux (sep : Char) : List Char → List Char → List (List Char)
  | [], acc => [acc.reverse]
  | c :: rest, acc =>
    if c = sep then acc.reverse :: splitCharAux sep rest []
    else splitCharAux sep rest (c :: acc)

/-- Python `str.split(sep)` for a single-character separator (also the
behaviour of splitting on a one-character separator string): adjacent
separators and separators at the ends produce empty parts. -/
def splitChar (sep : Char) (s : String) : List String :=
  (splitCharAux sep s.data []).map (⟨·⟩)

/-- Python `int(text)`: tolerate surrounding whitespace, then an optional
sign and a non-empty digit run. Returns `none` where Python raises
`ValueError`. -/
def pyInt (s : String) : Option Int :=
  let t := (pyStrip s).data
  let core : List Char → Option Int := fun ds =>
    if ds = [] ∨ ¬ ds.all Char.isDigit then none
    else some (ds.foldl (fun acc c => acc * 10 + (c.toNat - 48)) (0 : Int))
  match t with
  | '-' :: rest => (core rest).map (fun n => -n)
  | '+' :: rest => core rest
  | _ => core t

/-- Exact decimal number `num / 10 ^ exp`, the value carrier for the
real-valued record fields.  The codecs only ever parse such fields from
decimal text and re-render them at fixed precision, so an exact decimal
representation is a faithful shallow embedding of the Python floats. -/
structure Dec where
  num : Int
  exp : Nat
deriving Repr, DecidableEq

/-- Python `float(text)` restricted to the plain decimal forms that occur in
fixed-column PDB fields: optional sign, then either `digits`,
`digits.digits*` or `.digits+` (exponents and the `inf`/`nan` spellings are
not modelled). Returns `none` where Python raises `ValueError`. -/
def pyFloat (s : String) : Option Dec :=
  let t := (pyStrip s).data
  let digitsVal : List Char → Int := fun ds =>
    ds.foldl (fun acc c => acc * 10 + ((c.toNat : Int) - 48)) 0
  let core : List Char → Option Dec := fun ds =>
    let intPart := ds.takeWhile Char.isDigit
    let rest := ds.dropWhile Char.isDigit
    match rest with
    | [] => if intPart = [] then none else some ⟨digitsVal intPart, 0⟩
    | '.' :: frac =>
      if ¬ frac.all Char.isDigit then none
      else if intPart = [] ∧ frac = [] then none
      else some ⟨digitsVal (intPart ++ frac), frac.length⟩
    | _ => none
  match t with
  | '-' :: rest => (core rest).map (fun q => ⟨-q.num, q.exp⟩)
  | '+' :: rest => core rest
  | _ => core t

/-- Zero-pad the decimal rendering of a natural number to `w` digits. -/
def zeroPad (w : Nat) (n : Nat) : String :=
  ⟨List.replicate (w - (toString n).length) '0'⟩ ++ toString n

/-- Python fixed-point format `{q:w.df}`: render `q` with `d` decimals and
right-justify to minimum width `w`.  The rounding
`m = ⌊q·10^d + 1/2⌋` is computed exactly on the decimal value via a floor
division; this matches CPython's binary-double rendering for the values
that arise from parsing fixed-column decimal fields. -/
def fmtF (w d : Nat) (q : Dec) : String :=
  let m : Int := (2 * q.num * 10 ^ d + 10 ^ q.exp).fdiv (2 * 10 ^ q.exp)
  let sign := if m < 0 then "-" else ""
  let n := m.natAbs
  pyRJ w (sign ++ toString (n / 10 ^ d) ++ "." ++ zeroPad d (n % 10 ^ d))

/-- ASCII lower-casing of a string (Python `str.lower()` on ASCII data). -/
def asciiLower (s : String) : String :=
  ⟨s.data.map Char.toLower⟩

/-! ## `pdb2cif/general.py` -/

/-- Embedding of `atom_format` from `pdb2cif/general.py` (identical in
`old_pdb/general.py`), taking the record's `name` and `element` fields:
`if len(name) == 4: return name`;
`if name[:2] == element[:2]: return f"{name:>2}  "[:4]`;
`return f" {name:<3}"[:4]`. -/
def atom_format (name element : String) : String :=
  if name.length = 4 then name
  else if pyTake name 2 = pyTake element 2 then pyTake (pyRJ 2 name ++ "  ") 4
  else pyTake (" " ++ pyLJ 3 name) 4

/-- A calendar date as produced by `date_parse` (Python `datetime` restricted
to its date components). -/
structure PDate where
  year : Nat
  month : Nat
  day : Nat
deriving DecidableEq, Repr

/-- Gregorian leap-year rule used by Python's `datetime` validation. -/
def isLeap (y : Nat) : Bool :=
  y % 4 = 0 ∧ (y % 100 ≠ 0 ∨ y % 400 = 0)

/-- Number of days in a month, as validated by Python's `datetime`
constructor. -/
def daysInMonth (y m : Nat) : Nat :=
  if m = 2 then (if isLeap y then 29 else 28)
  else if m ∈ [4, 6, 9, 11] then 30
  else 31

/-- Lower-case English month abbreviations in calendar order (the C-locale
table used by `strptime`'s `%b`). -/
def monthAbbrevs : List String :=
  ["jan", "feb", "mar", "apr", "may", "jun",
   "jul", "aug", "sep", "oct", "nov", "dec"]

/-- Month number (1–12) of a month-abbreviation token, matched
case-insensitively as `strptime`'s `%b` does (the lowered token against the
lower-cased C-locale table). -/
def monthNum (tok : String) : Option Nat :=
  let t := asciiLower tok
  if t = "jan" then some 1 else if t = "feb" then some 2
  else if t = "mar" then some 3 else if t = "apr" then some 4
  else if t = "may" then some 5 else if t = "jun" then some 6
  else if t = "jul" then some 7 else if t = "aug" then some 8
  else if t = "sep" then some 9 else if t = "oct" then some 10
  else if t = "nov" then some 11 else if t = "dec" then some 12
  else none

/-- Day-of-month token as accepted by `strptime`'s `%d` pattern
`3[01]|[12]\d|0[1-9]|[1-9]` followed by the next literal: one digit 1–9, or
two digits with value 01–31. -/
def parseDay (s : String) : Option Nat :=
  if ¬ s.data.all Char.isDigit then none
  else match pyInt s with
    | none => none
    | some v =>
      if s.length = 1 ∧ 1 ≤ v ∧ v ≤ 9 then some v.toNat
      else if s.length = 2 ∧ 1 ≤ v ∧ v ≤ 31 then some v.toNat
      else none

/-- Two-digit year token (`strptime`'s `%y` pattern `\d\d` and the integer
conversion of the two digits). -/
def parseYear2 (s : String) : Option Nat :=
  match s.data with
  | [c1, c2] =>
    if c1.isDigit ∧ c2.isDigit then some ((c1.toNat - 48) * 10 + (c2.toNat - 48))
    else none
  | _ => none

/-- Embedding of `date_parse` from `pdb2cif/general.py`:
`datetime.strptime(date_string, "%d-%b-%y")`.  The `%d-%b-%y` pattern must
match the whole string; `%b` is matched case-insensitively against the
C-locale month abbreviations; two-digit years 00–68 map to 2000–2068 and
69–99 to 1969–1999; the assembled date is validated against the month
length.  `none` models the `ValueError` Python raises. -/
def date_parse (s : String) : Option PDate :=
  match splitChar '-' s with
  | [dstr, mstr, ystr] =>
    match parseDay dstr, monthNum mstr, parseYear2 ystr with
    | some d, some m, some yy =>
      let y := if yy ≤ 68 then 2000 + yy else 1900 + yy
      if d ≤ daysInMonth y m then some ⟨y, m, d⟩ else none
    | _, _, _ => none
  | _ => none

/-- Upper-case month abbreviation for `date_format` (strftime `%b` followed
by `str.upper()`). -/
def monthAbbrevUpper (m : Nat) : String :=
  ⟨(monthAbbrevs.getD (m - 1) "").data.map Char.toUpper⟩

/-- Embedding of `date_format` from `pdb2cif/general.py`: `DD-MMM-YY`
upper-cased, or nine spaces for `None`. -/
def date_format (d : Option PDate) : String :=
  match d with
  | none => "         "
  | some dt => zeroPad 2 dt.day ++ "-" ++ monthAbbrevUpper dt.month ++ "-" ++ zeroPad 2 (dt.year % 100)

/-- Embedding of `grouper` from `pdb2cif/general.py`
(`zip_longest` with `fillvalue=None` over `block_size` copies of one
iterator): chunk a list into blocks of `bs` elements, the last block padded
with `none`; an empty list yields no blocks at all. -/
def grouperGo {α : Type} (bs : Nat) : Nat → List α → List (List (Option α))
  | _, [] => []
  | 0, _ :: _ => []
  | fuel + 1, x :: xs =>
    ((x :: xs.take (bs - 1)).map some ++ List.replicate (bs - 1 - xs.length) none)
      :: grouperGo bs fuel (xs.drop (bs - 1))

/-- Wrapper for `grouperGo` supplying enough fuel (each emitted chunk
consumes at least one element, so `l.length` rounds suffice). -/
def grouper {α : Type} (bs : Nat) (l : List α) : List (List (Option α)) :=
  grouperGo bs l.length l

/-! ## `pdb2cif/annotation.py`: `Compound`, `Caveat`, `Site`, `Split` -/

/-- COMPND record accumulator (`Compound` in `pdb2cif/annotation.py`): an
ordered list of specification-list fragments. -/
structure Compound where
  compound : List String
deriving Repr, DecidableEq

/-- Embedding of `Compound.parse_pdb`: append `line[10:80].strip()` to the
accumulator (the continuation number in columns 8–10 is never read). -/
def Compound.parse_pdb (c : Compound) (line : String) : Compound :=
  { compound := c.compound ++ [pyStrip (pySlice line 10 80)] }

/-- The list of physical lines built by `Compound.__str__` before joining:
fragment 0 formats as `f"COMPND    {line:70}"`, fragment `i ≥ 1` as
`f"COMPND {i+1:>3} {line:69}"`. -/
def Compound.strLines (c : Compound) : List String :=
  c.compound.enum.map fun p =>
    if p.1 + 1 > 1 then "COMPND " ++ pyRJ 3 (toString (p.1 + 1)) ++ " " ++ pyLJ 69 p.2
    else "COMPND    " ++ pyLJ 70 p.2

/-- Embedding of `Compound.__str__`. -/
def Compound.str (c : Compound) : String :=
  joinNL c.strLines

/-- CAVEAT record accumulator (`Caveat` in `pdb2cif/annotation.py`). -/
structure Caveat where
  id_code : Option String
  comment : List String
deriving Repr, DecidableEq

/-- Embedding of `Caveat.parse_pdb`. -/
def Caveat.parse_pdb (c : Caveat) (line : String) : Caveat :=
  { id_code := some (pyStrip (pySlice line 11 15)),
    comment := c.comment ++ [pyStrip (pySlice line 19 70)] }

/-- The list of physical lines built by `Caveat.__str__` before joining.
The first-line branch of the source is the string literal
`"CAVEAT        \x7bline:51\x7d"` — the `f` prefix is missing in the
source, so the braces are emitted verbatim instead of the comment text. -/
def Caveat.strLines (c : Caveat) : List String :=
  c.comment.enum.map fun p =>
    if p.1 + 1 > 1 then "CAVEAT  " ++ pyRJ 2 (toString (p.1 + 1)) ++ "     " ++ pyLJ 51 p.2
    else "CAVEAT        \x7bline:51\x7d"

/-- Embedding of `Caveat.__str__`. -/
def Caveat.str (c : Caveat) : String :=
  joinNL c.strLines

/-- One named site (`SpecificSite` in `pdb2cif/annotation.py`).  The four
residue attribute lists are co-indexed (they are extended together by
`parse_cif_row`); the CIF-sourced `num_res` field is string-valued. -/
structure SpecificSite where
  site_id : String
  num_res : String
  res_name : List String
  chain_id : List String
  seq : List String
  ins_code : List String
deriving Repr, DecidableEq

/-- Embedding of `SpecificSite.__str__`: residues are emitted four per
physical line, with the per-line sequence number `seq_num` re-derived from
the running line counter (starting at 1) rather than taken from input. -/
def SpecificSite.str (s : SpecificSite) : String :=
  let len := s.res_name.length
  let lines := (List.range ((len + 3) / 4)).map fun ichunk =>
    let istep : Nat := ichunk * 4
    let entries := (List.range (min len (istep + 4) - istep)).map fun k =>
      let isite := istep + k
      pyRJ 3 (s.res_name.getD isite "") ++ " " ++ pyLJ 1 (s.chain_id.getD isite "")
        ++ pyRJ 4 (s.seq.getD isite "") ++ pyLJ 1 (s.ins_code.getD isite "") ++ " "
    "SITE   " ++ pyLJ 3 (toString (ichunk + 1)) ++ " " ++ pyLJ 3 s.site_id ++ " "
      ++ pyLJ 2 s.num_res ++ " " ++ String.join entries
  joinNL lines

/-- SITE record aggregate (`Site` in `pdb2cif/annotation.py`): an ordered
mapping from site id to `SpecificSite`, embedded as an association list. -/
structure Site where
  sites : List (String × SpecificSite)
deriving Repr, DecidableEq

/-- Embedding of `Site.__str__`: the joined `__str__`s of the stored
sites, in insertion order. -/
def Site.str (s : Site) : String :=
  joinNL (s.sites.map fun p => p.2.str)

/-- SPLIT record accumulator (`Split` in `pdb2cif/annotation.py`). -/
structure Split where
  id_codes : List String
deriving Repr, DecidableEq

/-- Embedding of `Split.parse_pdb`: scan the fourteen 4-character ID-code
slots at columns 12–15, 17–20, …, 77–80, appending each non-blank code. -/
def Split.parse_pdb (s : Split) (line : String) : Split :=
  let codes := (List.range 14).filterMap fun i =>
    let code := pyStrip (pySlice line (11 + 5 * i) (15 + 5 * i))
    if code = "" then none else some code
  { id_codes := s.id_codes ++ codes }

/-- The list of physical lines built by `Split.__str__` before joining.
The continuation branch of the source is
`f"\SPLIT    {continuation:>2}"` — the record name is preceded by a
literal backslash (`"\S"` is not an escape sequence in Python). -/
def Split.strLines (s : Split) : List String :=
  (grouper 14 s.id_codes).enum.map fun p =>
    let head := if p.1 + 1 > 1 then "\\SPLIT    " ++ pyRJ 2 (toString (p.1 + 1))
      else "SPLIT      "
    head ++ String.join (p.2.map fun oc =>
      match oc with
      | some code => " " ++ pyLJ 4 code
      | none => "")

/-- Embedding of `Split.__str__`. -/
def Split.str (s : Split) : String :=
  joinNL s.strLines

/-! ## `pdb2cif/secondary.py`: `Link` -/

/-- LINK record (`Link` in `pdb2cif/secondary.py`).  `length` holds the raw
`line[73:78]` slice (a string, unstripped); `is_element1`/`is_element2` are
the derived booleans set to `None` by `parse_pdb` and resolved by the
entry's `annotate_link` pass. -/
structure Link where
  name1 : String
  alt_loc1 : String
  res_name1 : String
  chain_id1 : String
  res_seq1 : Int
  ins_code1 : String
  name2 : String
  alt_loc2 : String
  res_name2 : String
  chain_id2 : String
  res_seq2 : Int
  ins_code2 : String
  sym1 : String
  sym2 : String
  len : String
  is_element1 : Option Bool
  is_element2 : Option Bool
deriving Repr, DecidableEq

/-- Embedding of `Link.parse_pdb`: fixed-column field extraction. `none`
models the exceptions Python raises there (`IndexError` on the
single-character subscripts for short lines, `ValueError` on non-integer
residue sequence numbers). -/
def Link.parse_pdb (line : String) : Option Link := do
  let alt1 ← pyAt line 16
  let rs1 ← pyInt (pyStrip (pySlice line 22 26))
  let ins1 ← pyAt line 26
  let alt2 ← pyAt line 46
  let chn2 ← pyAt line 51
  let rs2 ← pyInt (pyStrip (pySlice line 52 56))
  let ins2 ← pyAt line 56
  some
    { name1 := pyStrip (pySlice line 12 16)
      alt_loc1 := pyStrip ⟨[alt1]⟩
      res_name1 := pyStrip (pySlice line 17 20)
      chain_id1 := pyStrip (pySlice line 21 22)
      res_seq1 := rs1
      ins_code1 := pyStrip ⟨[ins1]⟩
      name2 := pyStrip (pySlice line 42 46)
      alt_loc2 := pyStrip ⟨[alt2]⟩
      res_name2 := pyStrip (pySlice line 47 50)
      chain_id2 := pyStrip ⟨[chn2]⟩
      res_seq2 := rs2
      ins_code2 := pyStrip ⟨[ins2]⟩
      sym1 := pyStrip (pySlice line 59 65)
      sym2 := pyStrip (pySlice line 66 72)
      len := pySlice line 73 78
      is_element1 := none
      is_element2 := none }

/-- Embedding of `Link.__str__`.  Formatting before both derived booleans
have been resolved raises (`if None in [self.is_element1,
self.is_element2]`), modelled as `Except.error` with the source's message. -/
def Link.str (l : Link) : Except String String :=
  if l.is_element1 = none ∨ l.is_element2 = none then
    .error ("Must run annotate_link first before correctly formatted " ++
      "strings can be produced.")
  else
    let name1 :=
      if l.is_element1 = some true then pyTake (pyRJ 2 l.name1 ++ "  ") 4
      else if l.name1.length = 2 then " " ++ l.name1 ++ " "
      else pyRJ 4 l.name1
    let name2 :=
      if l.is_element2 = some true then pyTake (pyRJ 2 l.name2 ++ "  ") 4
      else if l.name2.length = 2 then " " ++ l.name2 ++ " "
      else pyRJ 4 l.name2
    let string := "LINK        "
      ++ name1 ++ pyLJ 1 l.alt_loc1 ++ pyRJ 3 l.res_name1 ++ " " ++ pyLJ 1 l.chain_id1
      ++ intRJ 4 l.res_seq1 ++ pyLJ 1 l.ins_code1 ++ "               "
      ++ name2 ++ pyLJ 1 l.alt_loc2 ++ pyRJ 3 l.res_name2 ++ " " ++ l.chain_id2
      ++ intRJ 4 l.res_seq2 ++ pyLJ 1 l.ins_code2 ++ "  " ++ pyRJ 6 l.sym1 ++ " "
      ++ pyRJ 6 l.sym2
    .ok (if l.len ≠ "" then string ++ " " ++ pyLJ 5 l.len else string)

/-! ## `pdb2cif/coordinates.py`: `Atom.__str__` and `HeterogenAtom.__str__` -/

namespace Cif

/-- ATOM coordinate record of `pdb2cif/coordinates.py` (the fields shared
with `HeterogenAtom`). -/
structure Atom where
  serial : Int
  name : String
  alt_loc : String
  res_name : String
  chain_id : String
  res_seq : Int
  ins_code : String
  x : Dec
  y : Dec
  z : Dec
  occupancy : Dec
  temp_factor : Dec
  seg_id : String
  element : String
  charge : String
deriving Repr, DecidableEq

/-- HETATM coordinate record of `pdb2cif/coordinates.py`; same fields as
`Atom`, kept as a distinct tagged variant as in the source. -/
structure HeterogenAtom where
  serial : Int
  name : String
  alt_loc : String
  res_name : String
  chain_id : String
  res_seq : Int
  ins_code : String
  x : Dec
  y : Dec
  z : Dec
  occupancy : Dec
  temp_factor : Dec
  seg_id : String
  element : String
  charge : String
deriving Repr, DecidableEq

/-- Embedding of `Atom.__str__` from `pdb2cif/coordinates.py`: note the
eleven spaces after the temperature-factor field and the bare
`{self.element}` with no width spec (the `pdb2cif` variant does not
`.strip()` the result). -/
def Atom.str (a : Atom) : String :=
  "ATOM  " ++ intRJ 5 a.serial ++ " " ++ atom_format a.name a.element
    ++ pyLJ 1 a.alt_loc ++ pyRJ 3 a.res_name ++ " " ++ pyLJ 1 a.chain_id
    ++ intRJ 4 a.res_seq ++ pyLJ 1 a.ins_code ++ "   "
    ++ fmtF 8 3 a.x ++ fmtF 8 3 a.y ++ fmtF 8 3 a.z
    ++ fmtF 6 2 a.occupancy ++ fmtF 6 2 a.temp_factor
    ++ "           " ++ a.element ++ pyLJ 2 a.charge

/-- Embedding of `HeterogenAtom.__str__` from `pdb2cif/coordinates.py`: ten
spaces after the temperature-factor field, then `{self.element:>2}`. -/
def HeterogenAtom.str (a : HeterogenAtom) : String :=
  "HETATM" ++ intRJ 5 a.serial ++ " " ++ atom_format a.name a.element
    ++ pyLJ 1 a.alt_loc ++ pyRJ 3 a.res_name ++ " " ++ pyLJ 1 a.chain_id
    ++ intRJ 4 a.res_seq ++ pyLJ 1 a.ins_code ++ "   "
    ++ fmtF 8 3 a.x ++ fmtF 8 3 a.y ++ fmtF 8 3 a.z
    ++ fmtF 6 2 a.occupancy ++ fmtF 6 2 a.temp_factor
    ++ "          " ++ pyRJ 2 a.element ++ pyLJ 2 a.charge

end Cif

/-! ## The `pdb_old_format` package: coordinates and the `Entry` dispatcher -/

namespace OldFmt

/-- Update an association list at a key, keeping an existing key's position
and otherwise appending — the mutation behaviour of a Python
`OrderedDict` assignment. -/
def assocSet {α : Type} : List (String × α) → String → α → List (String × α)
  | [], k, v => [(k, v)]
  | (k', v') :: rest, k, v =>
    if k' = k then (k, v) :: rest else (k', v') :: assocSet rest k v

/-- Look up an association list key (Python `dict.get`). -/
def assocGet {α : Type} (l : List (String × α)) (k : String) : Option α :=
  (l.find? fun p => p.1 = k).map fun p => p.2

/-- ATOM coordinate record of `pdb_old_format/coordinates.py`. -/
structure Atom where
  serial : Int
  name : String
  alt_loc : String
  res_name : String
  chain_id : String
  res_seq : Int
  ins_code : String
  x : Dec
  y : Dec
  z : Dec
  occupancy : Dec
  temp_factor : Dec
  seg_id : String
  element : String
  charge : String
deriving Repr, DecidableEq

/-- The tail of `Atom.parse_line` guarded by
`try: ... except (ValueError, IndexError): pass`: each assignment happens in
order and the first failing conversion silently abandons the rest, keeping
the values assigned so far. -/
def Atom.parseTail (a : Atom) (line : String) : Atom :=
  match pyFloat (pyStrip (pySlice line 54 60)) with
  | none => a
  | some occ =>
    let a := { a with occupancy := occ }
    match pyFloat (pyStrip (pySlice line 60 66)) with
    | none => a
    | some tf =>
      { a with
        temp_factor := tf
        seg_id := pyStrip (pySlice line 72 76)
        element := pyStrip (pySlice line 76 78)
        charge := pyStrip (pySlice line 78 80) }

/-- Embedding of `Atom.parse_line` from `pdb_old_format/coordinates.py`.
`none` models the uncaught `ValueError`/`IndexError` of the mandatory
fields; the optional tail fields go through `Atom.parseTail`. -/
def Atom.parse_line (line : String) : Option Atom := do
  let serial ← pyInt (pyStrip (pySlice line 6 11))
  let alt ← pyAt line 16
  let chain ← pyAt line 21
  let res_seq ← pyInt (pyStrip (pySlice line 22 26))
  let ins ← pyAt line 26
  let x ← pyFloat (pyStrip (pySlice line 30 38))
  let y ← pyFloat (pyStrip (pySlice line 38 46))
  let z ← pyFloat (pyStrip (pySlice line 46 54))
  let base : Atom :=
    { serial
      name := pyStrip (pySlice line 12 16)
      alt_loc := pyStrip ⟨[alt]⟩
      res_name := pyStrip (pySlice line 17 20)
      chain_id := pyStrip ⟨[chain]⟩
      res_seq
      ins_code := pyStrip ⟨[ins]⟩
      x, y, z
      occupancy := ⟨0, 2⟩
      temp_factor := ⟨0, 2⟩
      seg_id := ""
      element := ""
      charge := "" }
  some (base.parseTail line)

/-- Embedding of `Atom.__str__` from `pdb_old_format/coordinates.py` (this
variant `.strip()`s the formatted line). -/
def Atom.str (a : Atom) : String :=
  pyStrip ("ATOM  " ++ intRJ 5 a.serial ++ " " ++ atom_format a.name a.element
    ++ pyLJ 1 a.alt_loc ++ pyRJ 3 a.res_name ++ " " ++ pyLJ 1 a.chain_id
    ++ intRJ 4 a.res_seq ++ pyLJ 1 a.ins_code ++ "   "
    ++ fmtF 8 3 a.x ++ fmtF 8 3 a.y ++ fmtF 8 3 a.z
    ++ fmtF 6 2 a.occupancy ++ fmtF 6 2 a.temp_factor
    ++ "           " ++ a.element ++ pyLJ 2 a.charge)

/-- ANISOU record (`TemperatureFactor` in `pdb_old_format/coordinates.py`). -/
structure TemperatureFactor where
  serial : Int
  name : String
  alt_loc : String
  res_name : String
  chain_id : String
  res_seq : Int
  ins_code : String
  u00 : Int
  u11 : Int
  u22 : Int
  u01 : Int
  u02 : Int
  u12 : Int
  seg_id : String
  element : String
  charge : String
deriving Repr, DecidableEq

/-- Embedding of `TemperatureFactor.parse_line`; all conversions are
mandatory, so any failure fails the whole parse. -/
def TemperatureFactor.parse_line (line : String) : Option TemperatureFactor := do
  let serial ← pyInt (pyStrip (pySlice line 6 11))
  let alt ← pyAt line 16
  let chain ← pyAt line 21
  let res_seq ← pyInt (pyStrip (pySlice line 22 26))
  let ins ← pyAt line 26
  let u00 ← pyInt (pyStrip (pySlice line 28 35))
  let u11 ← pyInt (pyStrip (pySlice line 35 42))
  let u22 ← pyInt (pyStrip (pySlice line 42 49))
  let u01 ← pyInt (pyStrip (pySlice line 49 56))
  let u02 ← pyInt (pyStrip (pySlice line 56 63))
  let u12 ← pyInt (pyStrip (pySlice line 63 70))
  some
    { serial
      name := pyStrip (pySlice line 12 16)
      alt_loc := pyStrip ⟨[alt]⟩
      res_name := pyStrip (pySlice line 17 20)
      chain_id := pyStrip ⟨[chain]⟩
      res_seq
      ins_code := pyStrip ⟨[ins]⟩
      u00, u11, u22, u01, u02, u12
      seg_id := pyStrip (pySlice line 72 76)
      element := pyStrip (pySlice line 76 78)
      charge := pyStrip (pySlice line 78 80) }

/-- Embedding of `TemperatureFactor.__str__` (the result is `.strip()`ed). -/
def TemperatureFactor.str (t : TemperatureFactor) : String :=
  pyStrip ("ANISOU" ++ intRJ 5 t.serial
    ++ (if t.name.length < 4 then "  " ++ pyLJ 3 t.name else " " ++ pyLJ 4 t.name)
    ++ pyLJ 1 t.alt_loc ++ pyLJ 3 t.res_name ++ " " ++ pyLJ 1 t.chain_id
    ++ intRJ 4 t.res_seq ++ pyLJ 1 t.ins_code ++ " "
    ++ intRJ 7 t.u00 ++ intRJ 7 t.u11 ++ intRJ 7 t.u22
    ++ intRJ 7 t.u01 ++ intRJ 7 t.u02 ++ intRJ 7 t.u12
    ++ "       " ++ pyLJ 2 t.element ++ pyLJ 2 t.charge)

/-- TER record (`ChainTerminus` in `pdb_old_format/coordinates.py`).  All
field extraction sits in one `try: ... except (IndexError, ValueError):
pass`, so a partially parsed terminus keeps its earlier fields and `None`
(here `none`) for the rest. -/
structure ChainTerminus where
  serial : Option Int
  res_name : Option String
  chain_id : Option String
  res_seq : Option Int
  ins_code : String
deriving Repr, DecidableEq

/-- Embedding of `ChainTerminus.parse_line`: sequential assignment, the
first failure silently abandoning the rest (total, like the Python method). -/
def ChainTerminus.parse_line (line : String) : ChainTerminus :=
  let init : ChainTerminus := ⟨none, none, none, none, ""⟩
  match pyInt (pyStrip (pySlice line 6 11)) with
  | none => init
  | some serial =>
    let a := { init with serial := some serial, res_name := some (pyStrip (pySlice line 17 20)) }
    match pyAt line 21 with
    | none => a
    | some chain =>
      let a := { a with chain_id := some (pyStrip ⟨[chain]⟩) }
      match pyInt (pyStrip (pySlice line 22 26)) with
      | none => a
      | some res_seq =>
        match pyAt line 26 with
        | none => { a with res_seq := some res_seq }
        | some ins => { a with res_seq := some res_seq, ins_code := pyStrip ⟨[ins]⟩ }

/-- Chain of `pdb_old_format/coordinates.py`.  Note the source quirks kept
here: `has_het_atom` is initialised to `True`, and HETATM lines are parsed
into `Atom` instances appended to `het_atom`. -/
structure Chain where
  chain_id : Option String
  atom : List Atom
  temp_factor : List TemperatureFactor
  het_atom : List Atom
  terminus : Option ChainTerminus
  has_atom : Bool
  has_het_atom : Bool
deriving Repr, DecidableEq

/-- A fresh `Chain()` as built by `Chain.__init__`. -/
def Chain.init : Chain :=
  ⟨none, [], [], [], none, false, true⟩

/-- Embedding of `Chain.parse_line`: dispatch on the record name in columns
1–6; unexpected names raise `ValueError`. -/
def Chain.parse_line (c : Chain) (line : String) : Except String Chain :=
  let name := pyStrip (pySlice line 0 6)
  if name = "ATOM" then
    match Atom.parse_line line with
    | none => .error ("Malformed ATOM record:\n" ++ line)
    | some a => .ok { c with has_atom := true, chain_id := some a.chain_id, atom := c.atom ++ [a] }
  else if name = "HETATM" then
    match Atom.parse_line line with
    | none => .error ("Malformed HETATM record:\n" ++ line)
    | some a => .ok { c with has_het_atom := true, chain_id := some a.chain_id, het_atom := c.het_atom ++ [a] }
  else if name = "ANISOU" then
    match TemperatureFactor.parse_line line with
    | none => .error ("Malformed ANISOU record:\n" ++ line)
    | some t => .ok { c with temp_factor := c.temp_factor ++ [t] }
  else if name = "TER" then
    if c.terminus.isSome then
      .error ("Got new TER record: " ++ line)
    else
      .ok { c with terminus := some (ChainTerminus.parse_line line) }
  else
    .error ("Unexpected line: " ++ line)

/-- Embedding of `Chain.num_atoms`: count `het_atom + atom`, excluding
hydrogen and deuterium when `heavy_only`. -/
def Chain.num_atoms (c : Chain) (heavy_only : Bool) : Nat :=
  ((c.het_atom ++ c.atom).filter fun a =>
    if heavy_only then a.element ∉ ["H", "D"] else True).length

/-- Embedding of `Chain.__str__`, which is
`raise NotImplementedError()` in `pdb_old_format/coordinates.py`. -/
def Chain.str (_ : Chain) : Except String String :=
  .error "NotImplementedError"

/-- MODEL record and coordinate-section container (`Model` in
`pdb_old_format/coordinates.py`), holding an ordered mapping of chain id to
`Chain`. -/
structure Model where
  serial : Option Int
  chain : List (String × Chain)
deriving Repr, DecidableEq

/-- A fresh `Model()`. -/
def Model.init : Model :=
  ⟨none, []⟩

/-- Embedding of `Model.parse_line`: `MODEL` stores the serial, coordinate
records are routed to the chain named by column 22, `ENDMDL` is a no-op and
anything else raises. -/
def Model.parse_line (m : Model) (line : String) : Except String Model :=
  let name := pyStrip (pySlice line 0 6)
  if name = "MODEL" then
    match pyInt (pyStrip (pySlice line 10 14)) with
    | none => .error ("Malformed MODEL record:\n" ++ line)
    | some n => .ok { m with serial := some n }
  else if name ∈ ["ATOM", "ANISOU", "TER", "HETATM"] then
    match pyAt line 21 with
    | none => .error "IndexError: string index out of range"
    | some ch => do
      let chain_id := pyStrip ⟨[ch]⟩
      let chain := (assocGet m.chain chain_id).getD Chain.init
      let chain' ← chain.parse_line line
      .ok { m with chain := assocSet m.chain chain_id chain' }
  else if name = "ENDMDL" then .ok m
  else .error ("Unexpected line: " ++ line)

/-- Embedding of `Model.num_atoms`: sum over the chains. -/
def Model.num_atoms (m : Model) (heavy_only : Bool) : Nat :=
  (m.chain.map fun p => p.2.num_atoms heavy_only).sum

/-- Embedding of `Model.__str__`: an optional `MODEL` serial line (emitted
only when `self.serial` is truthy, i.e. not `None` and non-zero) followed
by each chain's `__str__` — which is unimplemented in this variant and
raises for every chain. -/
def Model.str (m : Model) : Except String String := do
  let first : List String :=
    match m.serial with
    | some n => if n ≠ 0 then [pyStrip ("MODEL     " ++ intRJ 4 n)] else []
    | none => []
  let chainStrs ← m.chain.mapM fun p => p.2.str
  .ok (joinNL (first ++ chainStrs))

/-- HEADER record (`Header` in `old_pdb/annotation.py`, byte-identical to
the `pdb2cif/annotation.py` class; the `pdb_old_format` module it stands in
for is absent from the source tree). -/
structure Header where
  classification : String
  dep_date : PDate
  id_code : String
deriving Repr, DecidableEq

/-- Embedding of `Header.parse_line`; `none` models the `ValueError` from
`date_parse` on a malformed deposition date. -/
def Header.parse_line (line : String) : Option Header := do
  let d ← date_parse (pyStrip (pySlice line 50 59))
  some ⟨pyStrip (pySlice line 10 50), d, pyStrip (pySlice line 62 66)⟩

/-- Embedding of `Header.__str__`. -/
def Header.str (h : Header) : String :=
  "HEADER    " ++ pyLJ 40 h.classification ++ pyLJ 9 (date_format (some h.dep_date))
    ++ "   " ++ pyLJ 4 h.id_code

/-- NUMMDL record (`NumModels` in `old_pdb/annotation.py`, byte-identical
to the `pdb2cif/annotation.py` class). -/
structure NumModels where
  model_number : Int
deriving Repr, DecidableEq

/-- Embedding of `NumModels.parse_line` (`int(line[10:14])`; Python's `int`
tolerates the surrounding spaces). -/
def NumModels.parse_line (line : String) : Option NumModels := do
  let n ← pyInt (pySlice line 10 14)
  some ⟨n⟩

/-- Embedding of `NumModels.__str__`. -/
def NumModels.str (n : NumModels) : String :=
  "NUMMDL    " ++ intLJ 4 n.model_number

/-- SCALEn record (`FractionalTransform` in `old_pdb/crystallography.py`,
standing in for the absent `pdb_old_format/crystallography.py`). -/
structure FractionalTransform where
  n : Int
  sn1 : Dec
  sn2 : Dec
  sn3 : Dec
  unif : Dec
deriving Repr, DecidableEq

/-- Embedding of `FractionalTransform.parse_line` for a given `n`; `none`
models the `ValueError` of a failing `float` conversion. -/
def FractionalTransform.parse_line (n : Int) (line : String) : Option FractionalTransform := do
  let s1 ← pyFloat (pyStrip (pySlice line 10 20))
  let s2 ← pyFloat (pyStrip (pySlice line 20 30))
  let s3 ← pyFloat (pyStrip (pySlice line 30 40))
  let u ← pyFloat (pyStrip (pySlice line 45 55))
  some ⟨n, s1, s2, s3, u⟩

/-- Embedding of `FractionalTransform.__str__`. -/
def FractionalTransform.str (t : FractionalTransform) : String :=
  "SCALE" ++ toString t.n ++ "    " ++ fmtF 10 6 t.sn1 ++ fmtF 10 6 t.sn2
    ++ fmtF 10 6 t.sn3 ++ "     " ++ fmtF 10 5 t.unif

/-- Modelled from the spec: a record codec whose defining module is absent
from the source tree under `pdb_old_format/` (the annotation, primary,
heterogen, secondary and bookkeeping codecs other than the classes embedded
individually above).  Per the spec every record retains its raw source
line(s) (`BaseRecord.parse_line`) and per the spec's round-trip contract
`format(parse(D))` reproduces the parsed lines, so the model accumulates
the raw lines on parse and reproduces them on format.  No theorem below
depends on the internal field layout of these record types. -/
structure RawRecord where
  lines : List String
deriving Repr, DecidableEq

/-- A fresh raw-record accumulator. -/
def RawRecord.init : RawRecord :=
  ⟨[]⟩

/-- Modelled from the spec: parse appends the raw line, with the
`BaseRecord.parse_line` trailing-newline strip. -/
def RawRecord.parse_line (r : RawRecord) (line : String) : RawRecord :=
  ⟨r.lines ++ [pyStripRN line]⟩

/-- Modelled from the spec: format reproduces the accumulated lines. -/
def RawRecord.str (r : RawRecord) : String :=
  joinNL r.lines

/-- Modelled from the spec: the MASTER bookkeeping record
(`bookkeeping.Master`; `bookkeeping.py` is absent from the source tree in
every package variant).  It carries the declared counts consumed by
`Entry.check_master` — remark, heterogen, helix, sheet, site, transform,
heavy-atom coordinate, chain terminus and connect records — parsed from the
PDB v3.3 MASTER column table the spec designates as normative, and retains
its raw line, which format reproduces. -/
structure Master where
  num_remark : Int
  num_het : Int
  num_helix : Int
  num_sheet : Int
  num_site : Int
  num_xform : Int
  num_coord : Int
  num_ter : Int
  num_conect : Int
  num_seq : Int
  lines : List String
deriving Repr, DecidableEq

/-- Modelled from the spec: `Master` parse, reading the count columns of
the PDB v3.3 MASTER table (the deprecated `numTurn` column 36–40 is not
retained). -/
def Master.parse_line (line : String) : Option Master := do
  let nRemark ← pyInt (pySlice line 10 15)
  let nHet ← pyInt (pySlice line 20 25)
  let nHelix ← pyInt (pySlice line 25 30)
  let nSheet ← pyInt (pySlice line 30 35)
  let nSite ← pyInt (pySlice line 40 45)
  let nXform ← pyInt (pySlice line 45 50)
  let nCoord ← pyInt (pySlice line 50 55)
  let nTer ← pyInt (pySlice line 55 60)
  let nConect ← pyInt (pySlice line 60 65)
  let nSeq ← pyInt (pySlice line 65 70)
  some ⟨nRemark, nHet, nHelix, nSheet, nSite, nXform, nCoord, nTer, nConect, nSeq,
    [pyStripRN line]⟩

/-- Modelled from the spec: `Master` format reproduces the raw line. -/
def Master.str (m : Master) : String :=
  joinNL m.lines

end OldFmt

namespace OldFmt

/-- The `Entry` aggregate of `pdb_old_format/pdb_entry.py`, with the same
per-section containers as `Entry.__init__`.  Record types whose codec
module is absent from the source tree are carried as `RawRecord`
(spec-modelled, see there); containers the claims exercise use the
individually embedded codecs. -/
structure Entry where
  header : Option Header
  obsolete : Option RawRecord
  title : Option RawRecord
  split : Option RawRecord
  caveat : Option RawRecord
  compound : Option RawRecord
  source : Option RawRecord
  keywords : Option RawRecord
  experimental_data : Option RawRecord
  num_models : Option NumModels
  model_type : Option RawRecord
  author : Option RawRecord
  revision_data : Option RawRecord
  supersedes : Option RawRecord
  journal : List RawRecord
  remark : List RawRecord
  database_reference : List RawRecord
  sequence_differences : List RawRecord
  sequence_residues : Option RawRecord
  modified_residues : List RawRecord
  heterogen : List RawRecord
  heterogen_name : Option RawRecord
  heterogen_synonyms : Option RawRecord
  heterogen_formula : Option RawRecord
  helix : List RawRecord
  sheet : List RawRecord
  disulfide_bond : List RawRecord
  link : List Link
  cis_peptide : List RawRecord
  site : List RawRecord
  unit_cell : Option RawRecord
  orig_transform : List RawRecord
  frac_transform : List FractionalTransform
  noncrystal_transform : List RawRecord
  model : List Model
  connect : List RawRecord
  master : Option Master
deriving Repr, DecidableEq

/-- A fresh `Entry()` with every container empty, as in `Entry.__init__`. -/
def Entry.init : Entry :=
  ⟨none, none, none, none, none, none, none, none, none, none, none, none,
   none, none, [], [], [], [], none, [], [], none, none, none, [], [], [],
   [], [], [], none, [], [], [], [], [], none⟩

/-- Feed a line to an optional continuation-record accumulator: construct
on first occurrence, then feed the same instance (the
`if not self.x: self.x = C()` / `self.x.parse_line(line)` pattern). -/
def feedRaw (r : Option RawRecord) (line : String) : Option RawRecord :=
  some ((r.getD RawRecord.init).parse_line line)

/-- Embedding of `Entry.parse_line` from `pdb_old_format/pdb_entry.py`: the
30-way dispatch on the record name in columns 1–6.  `Except.error` models
the `ValueError`s the method raises — including the duplicate-record checks
for HEADER/NUMMDL/CRYST1/MASTER and the more-than-three checks for the
ORIGXn/SCALEn/MTRIXn families (which fire after the new transform has been
parsed and appended) — as well as exceptions propagating from the record
codecs. -/
def Entry.parse_line (e : Entry) (line : String) : Except String Entry :=
  let name := pyStrip (pySlice line 0 6)
  if name = "HEADER" then
    if e.header.isSome then
      .error ("HEADER already exists:\n" ++ (e.header.map Header.str).getD "")
    else
      match Header.parse_line line with
      | none => .error ("Malformed HEADER record:\n" ++ line)
      | some h => .ok { e with header := some h }
  else if name = "OBSLTE" then .ok { e with obsolete := feedRaw e.obsolete line }
  else if name = "TITLE" then .ok { e with title := feedRaw e.title line }
  else if name = "SPLIT" then .ok { e with split := feedRaw e.split line }
  else if name = "CAVEAT" then .ok { e with caveat := feedRaw e.caveat line }
  else if name = "COMPND" then .ok { e with compound := feedRaw e.compound line }
  else if name = "SOURCE" then .ok { e with source := feedRaw e.source line }
  else if name = "KEYWDS" then .ok { e with keywords := feedRaw e.keywords line }
  else if name = "EXPDTA" then
    .ok { e with experimental_data := feedRaw e.experimental_data line }
  else if name = "NUMMDL" then
    if e.num_models.isSome then
      .error ("NUMMDL already exists:\n" ++ (e.num_models.map NumModels.str).getD "")
    else
      match NumModels.parse_line line with
      | none => .error ("Malformed NUMMDL record:\n" ++ line)
      | some n => .ok { e with num_models := some n }
  else if name = "MDLTYP" then .ok { e with model_type := feedRaw e.model_type line }
  else if name = "AUTHOR" then .ok { e with author := feedRaw e.author line }
  else if name = "REVDAT" then
    .ok { e with revision_data := feedRaw e.revision_data line }
  else if name = "SPRSDE" then .ok { e with supersedes := feedRaw e.supersedes line }
  else if name = "JRNL" then
    .ok { e with journal := e.journal ++ [RawRecord.init.parse_line line] }
  else if name = "REMARK" then
    .ok { e with remark := e.remark ++ [RawRecord.init.parse_line line] }
  else if name = "DBREF" then
    .ok { e with database_reference := e.database_reference ++ [RawRecord.init.parse_line line] }
  else if name = "DBREF1" then
    .ok { e with database_reference := e.database_reference ++ [RawRecord.init.parse_line line] }
  else if name = "DBREF2" then
    .ok { e with database_reference := e.database_reference ++ [RawRecord.init.parse_line line] }
  else if name = "SEQADV" then
    .ok { e with sequence_differences := e.sequence_differences ++ [RawRecord.init.parse_line line] }
  else if name = "SEQRES" then
    .ok { e with sequence_residues := feedRaw e.sequence_residues line }
  else if name = "HET" then
    .ok { e with heterogen := e.heterogen ++ [RawRecord.init.parse_line line] }
  else if name = "HETNAM" then
    .ok { e with heterogen_name := feedRaw e.heterogen_name line }
  else if name = "HETSYN" then
    .ok { e with heterogen_synonyms := feedRaw e.heterogen_synonyms line }
  else if name = "FORMUL" then
    .ok { e with heterogen_formula := feedRaw e.heterogen_formula line }
  else if name = "HELIX" then
    .ok { e with helix := e.helix ++ [RawRecord.init.parse_line line] }
  else if name = "SHEET" then
    .ok { e with sheet := e.sheet ++ [RawRecord.init.parse_line line] }
  else if name = "SSBOND" then
    .ok { e with disulfide_bond := e.disulfide_bond ++ [RawRecord.init.parse_line line] }
  else if name = "LINK" then
    match Link.parse_pdb line with
    | none => .error ("Malformed LINK record:\n" ++ line)
    | some l => .ok { e with link := e.link ++ [l] }
  else if name = "CISPEP" then
    .ok { e with cis_peptide := e.cis_peptide ++ [RawRecord.init.parse_line line] }
  else if name = "SITE" then
    .ok { e with site := e.site ++ [RawRecord.init.parse_line line] }
  else if name = "CRYST1" then
    if e.unit_cell.isSome then
      .error ("CRYST1 already exists:\n" ++ (e.unit_cell.map RawRecord.str).getD "")
    else
      .ok { e with unit_cell := some (RawRecord.init.parse_line line) }
  else if name ∈ ["ORIGX1", "ORIGX2", "ORIGX3"] then
    let orig := e.orig_transform ++ [RawRecord.init.parse_line line]
    if orig.length > 3 then
      .error ("Too many (" ++ toString orig.length ++ ") transforms.")
    else .ok { e with orig_transform := orig }
  else if name ∈ ["SCALE1", "SCALE2", "SCALE3"] then
    match pyAt name 5 with
    | none => .error "IndexError: string index out of range"
    | some d =>
      match FractionalTransform.parse_line ((d.toNat : Int) - 48) line with
      | none => .error ("Malformed SCALE record:\n" ++ line)
      | some scale =>
        let frac := e.frac_transform ++ [scale]
        if frac.length > 3 then
          .error ("Too many (" ++ toString frac.length ++ ") transforms.")
        else .ok { e with frac_transform := frac }
  else if name ∈ ["MTRIX1", "MTRIX2", "MTRIX3"] then
    let ncs := e.noncrystal_transform ++ [RawRecord.init.parse_line line]
    if ncs.length > 3 then
      .error ("Too many (" ++ toString ncs.length ++ ") transforms.")
    else .ok { e with noncrystal_transform := ncs }
  else if name = "MODEL" then do
    let m ← Model.init.parse_line line
    .ok { e with model := e.model ++ [m] }
  else if name ∈ ["ATOM", "ANISOU", "TER", "HETATM"] then do
    let ms := if e.model.isEmpty then [Model.init] else e.model
    let m' ← (ms.getLast?.getD Model.init).parse_line line
    .ok { e with model := ms.dropLast ++ [m'] }
  else if name = "CONECT" then
    .ok { e with connect := e.connect ++ [RawRecord.init.parse_line line] }
  else if name = "MASTER" then
    if e.master.isSome then
      .error ("MASTER record already exists. Got: " ++ line ++ ".")
    else
      match Master.parse_line line with
      | none => .error ("Malformed MASTER record:\n" ++ line)
      | some m => .ok { e with master := some m }
  else if name = "ENDMDL" ∨ name = "END" then .ok e
  else .error ("Unexpected entry:\n" ++ line)

/-- Sequential fold of `Entry.parse_line` over the document's lines — the
loop of `Entry.parse_file` (whose diagnostic re-wrapping of the exception
text is not modelled). -/
def Entry.parseLines (e : Entry) : List String → Except String Entry
  | [] => .ok e
  | l :: rest => do
    let e' ← e.parse_line l
    e'.parseLines rest

/-- Parse a whole document into a fresh `Entry`. -/
def parseDoc (ls : List String) : Except String Entry :=
  Entry.init.parseLines ls

/-- Embedding of `Entry.find_residue` (with the default `model_num=1`):
`self.model[model_num - 1]` raises `IndexError` on an empty model list, and
the subsequent `model.all_atoms` raises `AttributeError` because the
`Model` class of `pdb_old_format/coordinates.py` defines no `all_atoms`
member — so the lookup fails for every input. -/
def Entry.find_residue (e : Entry) (_chain_id : String) (_residue_id : Int) :
    Except String (List Atom) :=
  match e.model.head? with
  | none => .error "IndexError: list index out of range"
  | some _ => .error "AttributeError: 'Model' object has no attribute 'all_atoms'"

/-- Embedding of `Entry.find_atom_by_name`: filter the residue's atoms by
name, yielding Python's implicit `None` when nothing matches. -/
def Entry.find_atom_by_name (e : Entry) (chain_id : String) (residue_id : Int)
    (atom_name : String) : Except String (Option Atom) := do
  let atoms ← e.find_residue chain_id residue_id
  return atoms.find? fun a => a.name = atom_name

/-- Embedding of `Entry.annotate_link`: resolve both endpoint atoms and set
the two derived booleans.  Only the first endpoint's attribute access is
guarded by `try/except AttributeError` with the descriptive re-raise; a
missing second atom surfaces as the bare `AttributeError` of
`None.name`. -/
def Entry.annotate_link (e : Entry) (record : Link) : Except String Link := do
  let atom1 ← e.find_atom_by_name record.chain_id1 record.res_seq1 record.name1
  let record ←
    match atom1 with
    | none =>
      .error ("Unable to find atom " ++ record.name1 ++ " in residue "
        ++ toString record.res_seq1 ++ " in chain " ++ record.chain_id1 ++ ".")
    | some a =>
      pure { record with is_element1 := some (pyTake a.name 2 = pyTake a.element 2) }
  let atom2 ← e.find_atom_by_name record.chain_id2 record.res_seq2 record.name2
  match atom2 with
  | none => .error "AttributeError: 'NoneType' object has no attribute 'name'"
  | some a =>
    .ok { record with is_element2 := some (pyTake a.name 2 = pyTake a.element 2) }

/-- Collapse an optional-record list to the formatted strings of its
present members, as the `if record is not None: strings.append(str(record))`
loops do. -/
def optStrs (l : List (Option String)) : List String :=
  l.filterMap id

/-- Embedding of `Entry.__str__`: walk the sections in the fixed order of
the source, formatting each stored record; LINK records are passed through
`annotate_link` first; each model's text is followed by `"ENDMDL"` only
when more than one model is stored; the document ends with `"END   "`.
`Except.error` models the exceptions that formatting can raise
(`annotate_link` lookups, `Link.__str__` on unresolved links, and the
`NotImplementedError` of `Chain.__str__`). -/
def Entry.str (e : Entry) : Except String String := do
  let title := optStrs
    ([e.header.map Header.str, e.obsolete.map RawRecord.str,
      e.title.map RawRecord.str, e.split.map RawRecord.str,
      e.caveat.map RawRecord.str, e.compound.map RawRecord.str,
      e.source.map RawRecord.str, e.keywords.map RawRecord.str,
      e.experimental_data.map RawRecord.str, e.num_models.map NumModels.str,
      e.model_type.map RawRecord.str, e.author.map RawRecord.str]
      ++ [e.revision_data.map RawRecord.str] ++ [e.supersedes.map RawRecord.str])
    ++ (e.journal ++ e.remark).map RawRecord.str
  let primary := (e.database_reference ++ e.sequence_differences).map RawRecord.str
    ++ optStrs [e.sequence_residues.map RawRecord.str]
    ++ e.modified_residues.map RawRecord.str
  let het := e.heterogen.map RawRecord.str
    ++ optStrs [e.heterogen_name.map RawRecord.str,
      e.heterogen_synonyms.map RawRecord.str, e.heterogen_formula.map RawRecord.str]
  let secondary := (e.helix ++ e.sheet).map RawRecord.str
  let ssbond := e.disulfide_bond.map RawRecord.str
  let links ← e.link.mapM fun record => do
    let record ← e.annotate_link record
    record.str
  let cispep := e.cis_peptide.map RawRecord.str
  let sites := e.site.map RawRecord.str
  let cryst := optStrs [e.unit_cell.map RawRecord.str]
    ++ e.orig_transform.map RawRecord.str
    ++ e.frac_transform.map FractionalTransform.str
    ++ e.noncrystal_transform.map RawRecord.str
  let modelStrs ← e.model.mapM Model.str
  let coords := if e.model.length > 1 then
      modelStrs.flatMap (fun s => [s, "ENDMDL"])
    else modelStrs
  let conect := e.connect.map RawRecord.str
  let master := optStrs [e.master.map Master.str]
  .ok (joinNL (title ++ primary ++ het ++ secondary ++ ssbond ++ links ++ cispep
    ++ sites ++ cryst ++ coords ++ conect ++ master ++ ["END   "]))

/-- Embedding of `Entry.num_transforms`. -/
def Entry.num_transforms (e : Entry) : Nat :=
  e.orig_transform.length + e.frac_transform.length + e.noncrystal_transform.length

/-- Embedding of `Entry.num_atoms` (with the default `heavy_only=True`):
`self.model[0]` raises `IndexError` when no model exists. -/
def Entry.num_atoms (e : Entry) : Except String Nat :=
  match e.model.head? with
  | none => .error "IndexError: list index out of range"
  | some m => .ok (m.num_atoms true)

/-- Embedding of `Entry.num_ter`: the loop calls `model.num_ter()` on each
stored model, but the `Model` class of `pdb_old_format/coordinates.py`
defines no `num_ter` member, so the first iteration raises
`AttributeError`; only an empty model list returns (0). -/
def Entry.num_ter (e : Entry) : Except String Nat :=
  if e.model.isEmpty then .ok 0
  else .error "AttributeError: 'Model' object has no attribute 'num_ter'"

/-- Embedding of `Entry.check_master`: evaluate the list of
`(field, expected, found)` triples — in source order, which forces
`self.num_atoms()` and then `self.num_ter()` before any comparison — then
compare each pair, collecting a warning message per mismatch (the
`try: assert ... except AssertionError: _LOGGER.warning(...)` loop).
`Except.error` models the exceptions raised while the triple list is being
built: the `AttributeError` of `self.master` being `None`, the `IndexError`
of `num_atoms` on a model-less entry, and the `AttributeError` of
`num_ter` otherwise. -/
def Entry.check_master (e : Entry) : Except String (List String) := do
  match e.master with
  | none => .error "AttributeError: 'NoneType' object has no attribute 'num_remark'"
  | some master => do
    let ncoord ← e.num_atoms
    let nter ← e.num_ter
    let checks : List (String × Int × Int) :=
      [("model",
         (match e.num_models with | some nm => nm.model_number | none => 1),
         (e.model.length : Int)),
       ("REMARK", master.num_remark, (e.remark.length : Int)),
       ("HETATM", master.num_het, (e.heterogen.length : Int)),
       ("HELIX", master.num_helix, (e.helix.length : Int)),
       ("SHEET", master.num_sheet, (e.sheet.length : Int)),
       ("SITE", master.num_site, (e.site.length : Int)),
       ("transform", master.num_xform, (e.num_transforms : Int)),
       ("coordinate", master.num_coord, (ncoord : Int)),
       ("TER", master.num_ter, (nter : Int)),
       ("CONECT", master.num_conect, (e.connect.length : Int))]
    .ok (checks.filterMap fun c =>
      if c.2.1 ≠ c.2.2 then
        some ("MASTER indicates " ++ toString c.2.1 ++ " " ++ c.1
          ++ " records; found " ++ toString c.2.2
          ++ ". However, the MASTER record is hard to interpret.")
      else none)

end OldFmt

deriving instance DecidableEq for Except

/-! ## Supporting lemmas -/

theorem strExt {s t : String} (h : s.data = t.data) : s = t :=
  congrArg String.mk h

theorem mk_length (l : List Char) : (String.mk l).length = l.length := rfl

theorem append_data (s t : String) : (s ++ t).data = s.data ++ t.data := rfl

theorem strAppend_assoc (s t u : String) : s ++ t ++ u = s ++ (t ++ u) := by
  apply strExt
  simp [append_data]

theorem pyLJ_length (w : Nat) (s : String) : (pyLJ w s).length = max w s.length := by
  simp only [pyLJ, String.length_append, mk_length, List.length_replicate]
  omega

theorem pyRJ_length (w : Nat) (s : String) : (pyRJ w s).length = max w s.length := by
  simp only [pyRJ, String.length_append, mk_length, List.length_replicate]
  omega

theorem pyTake_eq_self {s : String} {n : Nat} (h : s.length ≤ n) : pyTake s n = s := by
  apply strExt
  simp only [pyTake]
  exact List.take_of_length_le h

theorem pyRJ_eq_of_le {w : Nat} {s : String} (h : s.length ≤ w) :
    pyRJ w s = ⟨List.replicate (w - s.length) ' '⟩ ++ s := rfl

/-! ## Claim C2: atom-name formatting -/

/-- Claim C2, counterexample.  The claim states that when the raw name is
not 4 characters long and its first two characters equal the element's, the
name is right-justified into columns 1–2 of the field with two trailing
spaces.  At `name = "FE1"`, `element = "FE"` the code instead produces
`"FE1 "`: columns 3–4 are `"1 "`, not two spaces, and the output is not
the name right-justified to width 2 followed by two spaces. -/
theorem c2_atom_format_counterexample :
    atom_format "FE1" "FE" = "FE1 " ∧
    pySlice (atom_format "FE1" "FE") 2 4 ≠ "  " ∧
    atom_format "FE1" "FE" ≠ pyRJ 2 "FE1" ++ "  " := by
  decide

/-- Claim C2, amended: a 4-character raw name is used verbatim; when the
first two characters of the name equal the first two of the element
(case-sensitively) the output is the name left-padded to width 2 followed
by two spaces and truncated to 4 characters — for names of at most two
characters this is right-justification into columns 1–2 with two trailing
spaces, while a 3-character matching name occupies columns 1–3 with a
single trailing space; otherwise the name is left-justified into columns
2–4 behind one leading space (for names of at most 3 characters).  The
spec's three examples hold. -/
theorem c2_atom_format_amended :
    (∀ name element : String, name.length = 4 → atom_format name element = name) ∧
    (∀ name element : String, name.length ≠ 4 → pyTake name 2 = pyTake element 2 →
      name.length ≤ 2 →
      atom_format name element = ⟨List.replicate (2 - name.length) ' '⟩ ++ name ++ "  ") ∧
    (∀ name element : String, name.length = 3 → pyTake name 2 = pyTake element 2 →
      atom_format name element = name ++ " ") ∧
    (∀ name element : String, name.length ≠ 4 → pyTake name 2 ≠ pyTake element 2 →
      name.length ≤ 3 →
      atom_format name element = " " ++ name ++ ⟨List.replicate (3 - name.length) ' '⟩) ∧
    atom_format "CA" "C" = " CA " ∧ atom_format "CA" "CA" = "CA  " ∧
    atom_format "HG21" "H" = "HG21" := by
  refine ⟨?_, ?_, ?_, ?_, by decide, by decide, by decide⟩
  · intro name element h4
    simp [atom_format, h4]
  · intro name element h4 hmatch hle
    have h2 : ("  " : String).length = 2 := rfl
    have hlen : (pyRJ 2 name ++ "  ").length = 4 := by
      simp only [String.length_append, pyRJ_length, h2]
      omega
    rw [atom_format, if_neg h4, if_pos hmatch, pyTake_eq_self (le_of_eq hlen),
      pyRJ_eq_of_le hle]
  · intro name element h3 hmatch
    have h4 : name.length ≠ 4 := by omega
    rw [atom_format, if_neg h4, if_pos hmatch]
    apply strExt
    have hd : name.data.length = 3 := h3
    simp only [pyTake, pyRJ, append_data, mk_length]
    rw [show (2 - name.length) = 0 from by omega]
    simp only [List.replicate_zero, List.nil_append]
    rw [List.take_append_eq_append_take, List.take_of_length_le (by omega), hd]
    rfl
  · intro name element h4 hmatch hle
    have h1 : (" " : String).length = 1 := rfl
    have hlen : (" " ++ pyLJ 3 name).length = 4 := by
      simp only [String.length_append, pyLJ_length, h1]
      omega
    rw [atom_format, if_neg h4, if_neg hmatch, pyTake_eq_self (le_of_eq hlen), pyLJ,
      ← strAppend_assoc]

/-- Claim C2, witness for the amended theorem's hypotheses: the verbatim
branch at `"HG21"`, the matching branch at `"FE"`, and the non-matching
branch at `"N"`. -/
theorem c2_atom_format_amended_witness :
    atom_format "HG21" "X" = "HG21" ∧ atom_format "FE" "FE" = "FE  " ∧
    atom_format "N" "C" = " N  " := by
  refine ⟨c2_atom_format_amended.1 "HG21" "X" (by decide), ?_, ?_⟩
  · have h := c2_atom_format_amended.2.1 "FE" "FE" (by decide) (by decide) (by decide)
    rw [h]
    decide
  · have h := c2_atom_format_amended.2.2.2.1 "N" "C" (by decide) (by decide) (by decide)
    rw [h]
    decide

/-! ## Claim C4: continuation renumbering of COMPND -/

theorem compound_foldl (ls : List String) (acc : Compound) :
    (ls.foldl Compound.parse_pdb acc).compound
      = acc.compound ++ ls.map fun l => pyStrip (pySlice l 10 80) := by
  induction ls generalizing acc with
  | nil => simp
  | cons l rest ih =>
    simp only [List.foldl_cons, List.map_cons, ih, Compound.parse_pdb]
    simp

/-- Claim C4: a COMPND record accumulated from any sequence of parsed lines
holds exactly the column 11–80 payloads in append order (the continuation
digits in columns 8–10 are never read), and formatting emits one line per
fragment whose continuation number is derived purely from the fragment's
position — the first line carries no explicit number, the `i`-th line
(`i ≥ 1`, zero-based) carries `i + 1` — regardless of the numbering on the
input lines. -/
theorem c4_compnd_continuation_renumbering :
    ∀ ls : List String,
      (ls.foldl Compound.parse_pdb ⟨[]⟩).compound
          = ls.map (fun l => pyStrip (pySlice l 10 80)) ∧
      ((ls.foldl Compound.parse_pdb ⟨[]⟩).strLines).length = ls.length ∧
      ∀ i frag, ((ls.foldl Compound.parse_pdb ⟨[]⟩).compound)[i]? = some frag →
        ((ls.foldl Compound.parse_pdb ⟨[]⟩).strLines)[i]? =
          some (if i = 0 then "COMPND    " ++ pyLJ 70 frag
            else "COMPND " ++ pyRJ 3 (toString (i + 1)) ++ " " ++ pyLJ 69 frag) := by
  intro ls
  have hacc := compound_foldl ls ⟨[]⟩
  simp only [List.nil_append] at hacc
  refine ⟨hacc, ?_, ?_⟩
  · simp [Compound.strLines, hacc]
  · intro i frag h
    simp only [Compound.strLines, List.getElem?_map, List.getElem?_enum, h,
      Option.map_some]
    by_cases hi : i = 0
    · simp [hi]
    · have : i + 1 > 1 := by omega
      simp [hi, this]

/-- Claim C4, witness: two COMPND lines carrying the scrambled continuation
numbers 999 and 7 come back out with the position-derived number 2 on the
second line. -/
theorem c4_compnd_continuation_renumbering_witness :
    ((["COMPND 999 FIRST", "COMPND   7 SECOND"].foldl Compound.parse_pdb
      ⟨[]⟩).strLines)[1]? =
      some ("COMPND " ++ pyRJ 3 (toString 2) ++ " " ++ pyLJ 69 "SECOND") := by
  have h := (c4_compnd_continuation_renumbering
    ["COMPND 999 FIRST", "COMPND   7 SECOND"]).2.2 1 "SECOND" (by decide)
  rw [h]
  decide

/-! ## Claim C7: record-name column fidelity -/

/-- Claim C7: the claim states that every formatted line of every record —
including SPLIT continuation lines — begins with the record's name
left-justified in columns 1–6.  `Split.__str__` violates this: a SPLIT
record holding 15 id codes formats as two lines, and the second
(continuation) line begins with the literal `"\SPLIT"` of the source's
`f"\SPLIT    {continuation:>2}"`, so its columns 1–6 are `"\SPLIT"`, not
`"SPLIT "` (columns 1–6 of first lines are correct). -/
theorem c7_split_continuation_backslash :
    (Split.strLines ⟨["0001", "0002", "0003", "0004", "0005", "0006", "0007",
      "0008", "0009", "0010", "0011", "0012", "0013", "0014", "0015"]⟩).length = 2 ∧
    pySlice ((Split.strLines ⟨["0001", "0002", "0003", "0004", "0005", "0006",
      "0007", "0008", "0009", "0010", "0011", "0012", "0013", "0014",
      "0015"]⟩).getD 1 "") 0 6 = "\\SPLIT" ∧
    pySlice ((Split.strLines ⟨["0001", "0002", "0003", "0004", "0005", "0006",
      "0007", "0008", "0009", "0010", "0011", "0012", "0013", "0014",
      "0015"]⟩).getD 0 "") 0 6 = "SPLIT " ∧
    ("\\SPLIT" : String) ≠ "SPLIT " := by
  decide

/-! ## Claim C9: zero-fragment formatting -/

/-- Claim C9, counterexample: the claim states a zero-fragment record
formats as a single blank-filled line; a CAVEAT with an empty comment list
formats as the empty string — zero lines, not one — and so does a SITE
with no accumulated sites. -/
theorem c9_zero_fragment_counterexample :
    Caveat.str ⟨none, []⟩ = "" ∧ (Caveat.strLines ⟨none, []⟩).length = 0 ∧
    Site.str ⟨[]⟩ = "" := by
  decide

/-- Claim C9, amended: a continuation-bearing record whose accumulator
holds zero fragments formats as the empty string — its per-fragment loop
emits no lines at all — rather than as a single line with blank fields. -/
theorem c9_zero_fragment_amended :
    (∀ c : Caveat, c.comment = [] → c.strLines = [] ∧ c.str = "") ∧
    (∀ s : Site, s.sites = [] → s.str = "") ∧
    (∀ s : Split, s.id_codes = [] → s.strLines = [] ∧ s.str = "") ∧
    (∀ c : Compound, c.compound = [] → c.strLines = [] ∧ c.str = "") := by
  refine ⟨?_, ?_, ?_, ?_⟩
  · intro c h
    constructor
    · simp [Caveat.strLines, h]
    · simp [Caveat.str, Caveat.strLines, h, joinNL]
  · intro s h
    simp [Site.str, h, joinNL]
  · intro s h
    constructor
    · simp [Split.strLines, h, grouper, grouperGo]
    · simp [Split.str, Split.strLines, h, grouper, grouperGo, joinNL]
  · intro c h
    constructor
    · simp [Compound.strLines, h]
    · simp [Compound.str, Compound.strLines, h, joinNL]

/-- Claim C9, witness: the amended theorem applied to empty CAVEAT, SITE,
SPLIT and COMPND records. -/
theorem c9_zero_fragment_amended_witness :
    Caveat.str ⟨some "1ABC", []⟩ = "" ∧ Site.str ⟨[]⟩ = "" ∧
    Split.str ⟨[]⟩ = "" ∧ Compound.str ⟨[]⟩ = "" :=
  ⟨(c9_zero_fragment_amended.1 ⟨some "1ABC", []⟩ rfl).2,
   c9_zero_fragment_amended.2.1 ⟨[]⟩ rfl,
   (c9_zero_fragment_amended.2.2.1 ⟨[]⟩ rfl).2,
   (c9_zero_fragment_amended.2.2.2 ⟨[]⟩ rfl).2⟩

/-! ## Claim C8: date-parsing strictness -/

theorem parseDay_bounds {s : String} {d : Nat} (h : parseDay s = some d) :
    1 ≤ d ∧ d ≤ 31 := by
  simp only [parseDay] at h
  split at h
  · cases h
  · split at h
    · cases h
    · rename_i v
      split at h
      · rename_i hc
        injection h with h
        omega
      · split at h
        · rename_i hc
          injection h with h
          omega
        · cases h

set_option maxHeartbeats 1000000 in
theorem monthNum_bounds {t : String} {m : Nat} (h : monthNum t = some m) :
    1 ≤ m ∧ m ≤ 12 := by
  simp only [monthNum] at h
  repeat' split at h
  all_goals try cases h
  all_goals omega

theorem isDigit_toNat {c : Char} (h : c.isDigit = true) :
    48 ≤ c.toNat ∧ c.toNat ≤ 57 := by
  simp [Char.isDigit] at h
  obtain ⟨h1, h2⟩ := h
  exact ⟨h1, h2⟩

theorem parseYear2_bounds {s : String} {y : Nat} (h : parseYear2 s = some y) :
    y ≤ 99 := by
  simp only [parseYear2] at h
  split at h
  · rename_i c1 c2 heq
    split at h
    · rename_i hd
      obtain ⟨h1, h2⟩ := hd
      obtain ⟨a1, a2⟩ := isDigit_toNat h1
      obtain ⟨b1, b2⟩ := isDigit_toNat h2
      injection h with h
      omega
    · cases h
  · cases h

/-- Claim C8, counterexample: the claim requires `parseDate` to reject
lower-case month abbreviations and non-zero-padded days; `date_parse`
(CPython `strptime` with `%d-%b-%y`) accepts both. -/
theorem c8_date_parse_counterexample :
    date_parse "28-mar-07" = some ⟨2007, 3, 28⟩ ∧
    date_parse "8-MAR-07" = some ⟨2007, 3, 8⟩ := by
  decide

/-- Claim C8, amended: `date_parse` accepts `DD-MMM-YY` with the month
abbreviation matched case-insensitively and a 1- or 2-digit day, mapping
2-digit years into 1969–2068 and validating the day against the month
length; it rejects unknown month tokens, wrong separators, extra
characters, 4-digit years and out-of-range days.  Every accepted string
yields a valid calendar date in that year window. -/
theorem c8_date_parse_amended :
    (∀ (s : String) (y m d : Nat), date_parse s = some ⟨y, m, d⟩ →
      1 ≤ d ∧ d ≤ daysInMonth y m ∧ 1 ≤ m ∧ m ≤ 12 ∧ 1969 ≤ y ∧ y ≤ 2068) ∧
    date_parse "28-MAR-07" = some ⟨2007, 3, 28⟩ ∧
    date_parse "28-mar-07" = some ⟨2007, 3, 28⟩ ∧
    date_parse "8-MAR-07" = some ⟨2007, 3, 8⟩ ∧
    date_parse "28-MAR-69" = some ⟨1969, 3, 28⟩ ∧
    date_parse "31-FEB-07" = none ∧
    date_parse "28-MAT-07" = none ∧
    date_parse "28-MAR-2007" = none ∧
    date_parse "28/MAR/07" = none ∧
    date_parse "" = none := by
  refine ⟨?_, by decide, by decide, by decide, by decide, by decide, by decide,
    by decide, by decide, by decide⟩
  intro s y m d h
  simp only [date_parse] at h
  split at h
  · rename_i dstr mstr ystr heq
    split at h
    · rename_i d' m' yy hday hmon hyear
      have hd := parseDay_bounds hday
      have hm := monthNum_bounds hmon
      have hy := parseYear2_bounds hyear
      by_cases h68 : yy ≤ 68 <;> simp only [h68, if_true, if_false] at h <;>
        split at h <;> try cases h
      all_goals rename_i hvalid
      all_goals exact ⟨by omega, hvalid, by omega, by omega, by omega, by omega⟩
    · cases h
  · cases h

/-- Claim C8, witness for the amended theorem's universal component,
applied at the spec's example date. -/
theorem c8_date_parse_amended_witness :
    1 ≤ 28 ∧ 28 ≤ daysInMonth 2007 3 ∧ 1 ≤ 3 ∧ 3 ≤ 12 ∧ 1969 ≤ 2007 ∧ 2007 ≤ 2068 :=
  c8_date_parse_amended.1 "28-MAR-07" 2007 3 28 (by decide)

/-! ## Claim C3: cardinality enforcement -/

/-- Claim C3: parsing a second HEADER line into an `Entry` that already
holds a header raises the duplicate-record error (before any field of the
line is read), and parsing a SCALEn line into an `Entry` already holding
three `FractionalTransform` records — provided the line's own fields parse
— raises the too-many-transforms error naming the new count 4. -/
theorem c3_cardinality_enforcement :
    (∀ (e : OldFmt.Entry) (h : OldFmt.Header) (line : String),
      e.header = some h → pyStrip (pySlice line 0 6) = "HEADER" →
      e.parse_line line = .error ("HEADER already exists:\n" ++ h.str)) ∧
    (∀ (e : OldFmt.Entry) (line : String) (d : Char) (t : OldFmt.FractionalTransform),
      e.frac_transform.length = 3 →
      pyStrip (pySlice line 0 6) ∈ ["SCALE1", "SCALE2", "SCALE3"] →
      pyAt (pyStrip (pySlice line 0 6)) 5 = some d →
      OldFmt.FractionalTransform.parse_line ((d.toNat : Int) - 48) line = some t →
      e.parse_line line = .error "Too many (4) transforms.") := by
  constructor
  · intro e h line hh hname
    simp [OldFmt.Entry.parse_line, hname, hh]
  · intro e line d t h3 hmem hd hp
    have h4 : (e.frac_transform ++ [t]).length = 4 := by
      simp [h3]
    simp only [List.mem_cons, List.not_mem_nil, or_false] at hmem
    rcases hmem with hname | hname | hname <;>
      (rw [hname] at hd <;>
       simp only [show pyAt "SCALE1" 5 = some '1' from rfl,
         show pyAt "SCALE2" 5 = some '2' from rfl,
         show pyAt "SCALE3" 5 = some '3' from rfl, Option.some.injEq] at hd <;>
       subst hd <;>
       simp only [show (('1'.toNat : Int) - 48) = 1 from rfl,
         show (('2'.toNat : Int) - 48) = 2 from rfl,
         show (('3'.toNat : Int) - 48) = 3 from rfl] at hp <;>
       simp [OldFmt.Entry.parse_line, hname, hp, h3,
         show pyAt "SCALE1" 5 = some '1' from rfl,
         show pyAt "SCALE2" 5 = some '2' from rfl,
         show pyAt "SCALE3" 5 = some '3' from rfl] <;>
       try rfl)

/-! ## Claim C1: round-trip fidelity -/

/-- Claim C1 (evaluation at the failing inputs): the syntactically valid
document `MODEL 1 / ENDMDL / END` parses successfully and serializes
successfully, but the output drops the ENDMDL line (ENDMDL is emitted only
when more than one model is stored), so the result is not line-for-line
equal to the input even after trailing-whitespace trimming; and a document
holding a single well-formed ATOM record parses but fails to serialize at
all, because `Chain.__str__` raises `NotImplementedError`. -/
theorem c1_roundtrip_failure :
    (OldFmt.parseDoc ["MODEL        1", "ENDMDL", "END"]).bind OldFmt.Entry.str =
      .ok "MODEL        1\nEND   " ∧
    (splitChar '\n' "MODEL        1\nEND   ").map pyRStrip = ["MODEL        1", "END"] ∧
    ["MODEL        1", "ENDMDL", "END"].map pyRStrip =
      ["MODEL        1", "ENDMDL", "END"] ∧
    ["MODEL        1", "END"] ≠ ["MODEL        1", "ENDMDL", "END"] ∧
    (OldFmt.parseDoc
      ["ATOM      1  N   ALA A   1      11.104   6.134  -6.504  1.00  0.00           N",
       "END"]).bind OldFmt.Entry.str = .error "NotImplementedError" := by
  decide

/-! ## Claim C5: MASTER mismatch handling -/

/-- Claim C5 (evaluation at the failing inputs): `check_master` raises for
every entry holding a MASTER record — on an entry with no models the
triple-building `self.num_atoms()` call raises `IndexError`, and on an
entry with coordinate records the `self.num_ter()` call raises
`AttributeError` because the `Model` class defines no `num_ter` — so the
mismatch comparisons (which would only warn) are never reached. -/
theorem c5_check_master_raises :
    (OldFmt.parseDoc
        ["MASTER        3    0    5    0    0    0    6    3 2000    1 2190    9",
         "END"]).map OldFmt.Entry.check_master =
      .ok (.error "IndexError: list index out of range") ∧
    (OldFmt.parseDoc
        ["ATOM      2  CA  ALA A   1       1.000   2.000   3.000  1.00  0.00           C",
         "MASTER        3    0    5    0    0    0    6    3 2000    1 2190    9",
         "END"]).map OldFmt.Entry.check_master =
      .ok (.error "AttributeError: 'Model' object has no attribute 'num_ter'") := by
  decide

/-! ## Claim C6: LINK annotation errors -/

/-- Claim C6 (evaluation): formatting a LINK before `is_element1` and
`is_element2` are resolved fails with the unresolved-link error, and a
freshly parsed LINK has both set to `None`; but `annotate_link`, run even
against an entry whose first model does contain the first endpoint atom,
fails with the bare `AttributeError` of the missing `Model.all_atoms`
member rather than the descriptive lookup error naming chain, residue and
atom. -/
theorem c6_link_annotate_errors :
    Link.str ⟨"CA", "", "ALA", "A", 1, "", "ZN", "", "HEM", "B", 90, "", "1555",
        "1555", "     ", none, none⟩ =
      .error ("Must run annotate_link first before correctly formatted " ++
        "strings can be produced.") ∧
    (Link.parse_pdb
        ("LINK        " ++ " CA " ++ " " ++ "ALA" ++ " " ++ "A" ++ "   1" ++ " "
          ++ "               " ++ " ZN " ++ " " ++ "HEM" ++ " " ++ "B" ++ "  90"
          ++ " " ++ "  " ++ "  1555" ++ " " ++ "  1555" ++ " " ++ " 2.05")).map
        (fun l => (l.is_element1, l.is_element2)) = some (none, none) ∧
    (OldFmt.parseDoc
        ["ATOM      2  CA  ALA A   1       1.000   2.000   3.000  1.00  0.00           C",
         "END"]).map
        (fun e => e.annotate_link
          ⟨"CA", "", "ALA", "A", 1, "", "ZN", "", "HEM", "B", 90, "", "1555",
            "1555", "     ", none, none⟩) =
      .ok (.error "AttributeError: 'Model' object has no attribute 'all_atoms'") ∧
    ("AttributeError: 'Model' object has no attribute 'all_atoms'" : String) ≠
      "Unable to find atom ZN in residue 90 in chain B." := by
  decide

/-- Claim C3, witness: a concrete entry already holding a header rejects a
second HEADER line, and a concrete entry holding three fractional
transforms rejects a fourth SCALE1 line whose fields parse. -/
theorem c3_cardinality_enforcement_witness :
    ({ OldFmt.Entry.init with
        header := some ⟨"OXYGEN TRANSPORT", ⟨2007, 3, 8⟩, "1ABC"⟩ } :
      OldFmt.Entry).parse_line "HEADER" =
      .error ("HEADER already exists:\n"
        ++ OldFmt.Header.str ⟨"OXYGEN TRANSPORT", ⟨2007, 3, 8⟩, "1ABC"⟩) ∧
    ({ OldFmt.Entry.init with
        frac_transform := [⟨1, ⟨19231, 6⟩, ⟨0, 6⟩, ⟨0, 6⟩, ⟨0, 5⟩⟩,
          ⟨2, ⟨0, 6⟩, ⟨17065, 6⟩, ⟨0, 6⟩, ⟨0, 5⟩⟩,
          ⟨3, ⟨0, 6⟩, ⟨0, 6⟩, ⟨16155, 6⟩, ⟨0, 5⟩⟩] } :
      OldFmt.Entry).parse_line
        "SCALE1      0.019231  0.000000  0.000000        0.00000" =
      .error "Too many (4) transforms." :=
  ⟨c3_cardinality_enforcement.1 _ ⟨"OXYGEN TRANSPORT", ⟨2007, 3, 8⟩, "1ABC"⟩
      "HEADER" rfl (by decide),
   c3_cardinality_enforcement.2 _
      "SCALE1      0.019231  0.000000  0.000000        0.00000" '1'
      ⟨1, ⟨19231, 6⟩, ⟨0, 6⟩, ⟨0, 6⟩, ⟨0, 5⟩⟩ (by decide) (by decide) (by decide)
      (by decide)⟩

/-! ## Claim C10: element and charge columns of ATOM versus HETATM lines -/

theorem atom_format_length (n e : String) : (atom_format n e).length = 4 := by
  unfold atom_format
  split
  · assumption
  · split
    · have hn : n.data.length = n.length := rfl
      have h2 : ("  " : String).data.length = 2 := rfl
      simp only [pyTake, mk_length, List.length_take, append_data,
        List.length_append, pyRJ, List.length_replicate, hn, h2]
      omega
    · have hn : n.data.length = n.length := rfl
      have h1 : (" " : String).data.length = 1 := rfl
      simp only [pyTake, mk_length, List.length_take, append_data,
        List.length_append, pyLJ, List.length_replicate, hn, h1]
      omega

theorem slice_of_append {s t : String} {a : Nat} (b : Nat) (ha : s.length = a) :
    pySlice (s ++ t) a b = pyTake t (b - a) := by
  apply strExt
  simp only [pySlice, pyTake, append_data]
  rw [← ha]
  rw [show s.length = s.data.length from rfl, List.drop_left]

theorem pyAt_eq_slice_get (s : String) (a i b : Nat) (h : i < b - a) :
    pyAt s (a + i) = (pySlice s a b).data.get? i := by
  simp only [pyAt, pySlice]
  rw [List.get?_take h, List.get?_drop]

theorem pyTake_append_left {s t : String} {n : Nat} (h : s.length = n) :
    pyTake (s ++ t) n = s := by
  apply strExt
  simp only [pyTake, append_data]
  rw [← h, show s.length = s.data.length from rfl, List.take_left]

set_option maxHeartbeats 1000000 in
/-- Claim C10: ATOM and HETATM lines place the element symbol in different
columns.  For every `HeterogenAtom` whose fields have their nominal widths,
the formatted line is 80 characters with the element right-justified in
columns 77–78 and the charge in columns 79–80.  For every `Atom` with
nominal-width fields, eleven spaces follow the temperature-factor field
(columns 67–77), so column 77 is always a space and the element never
occupies it; the element is written un-padded starting at column 78, and a
two-character element makes the line 81 characters long, pushing the charge
into columns 80–81, past column 80. -/
theorem c10_element_column_layout :
    ∀ (a : Cif.Atom) (b : Cif.HeterogenAtom),
      (toString a.serial).length ≤ 5 → a.alt_loc.length ≤ 1 →
      a.res_name.length ≤ 3 → a.chain_id.length ≤ 1 →
      (toString a.res_seq).length ≤ 4 → a.ins_code.length ≤ 1 →
      (fmtF 8 3 a.x).length = 8 → (fmtF 8 3 a.y).length = 8 →
      (fmtF 8 3 a.z).length = 8 → (fmtF 6 2 a.occupancy).length = 6 →
      (fmtF 6 2 a.temp_factor).length = 6 → a.charge.length ≤ 2 →
      (toString b.serial).length ≤ 5 → b.alt_loc.length ≤ 1 →
      b.res_name.length ≤ 3 → b.chain_id.length ≤ 1 →
      (toString b.res_seq).length ≤ 4 → b.ins_code.length ≤ 1 →
      (fmtF 8 3 b.x).length = 8 → (fmtF 8 3 b.y).length = 8 →
      (fmtF 8 3 b.z).length = 8 → (fmtF 6 2 b.occupancy).length = 6 →
      (fmtF 6 2 b.temp_factor).length = 6 → b.element.length ≤ 2 →
      b.charge.length ≤ 2 →
      (pySlice (Cif.Atom.str a) 66 77 = "           " ∧
       pyAt (Cif.Atom.str a) 76 = some ' ' ∧
       pySlice (Cif.Atom.str a) 77 (77 + a.element.length) = a.element ∧
       (a.element.length = 2 → (Cif.Atom.str a).length = 81)) ∧
      ((Cif.HeterogenAtom.str b).length = 80 ∧
       pySlice (Cif.HeterogenAtom.str b) 76 78 = pyRJ 2 b.element ∧
       pySlice (Cif.HeterogenAtom.str b) 78 80 = pyLJ 2 b.charge) := by
  intro a b ha1 ha2 ha3 ha4 ha5 ha6 ha7 ha8 ha9 ha10 ha11 ha12
  intro hb1 hb2 hb3 hb4 hb5 hb6 hb7 hb8 hb9 hb10 hb11 hb12 hb13
  have l6 : ("ATOM  " : String).length = 6 := rfl
  have l6h : ("HETATM" : String).length = 6 := rfl
  have l1 : (" " : String).length = 1 := rfl
  have l3 : ("   " : String).length = 3 := rfl
  have l10 : ("          " : String).length = 10 := rfl
  have l11 : ("           " : String).length = 11 := rfl
  have ha0 : (atom_format a.name a.element).length = 4 := atom_format_length _ _
  have hb0 : (atom_format b.name b.element).length = 4 := atom_format_length _ _
  have h1 : Cif.Atom.str a =
      ("ATOM  " ++ intRJ 5 a.serial ++ " " ++ atom_format a.name a.element
        ++ pyLJ 1 a.alt_loc ++ pyRJ 3 a.res_name ++ " " ++ pyLJ 1 a.chain_id
        ++ intRJ 4 a.res_seq ++ pyLJ 1 a.ins_code ++ "   "
        ++ fmtF 8 3 a.x ++ fmtF 8 3 a.y ++ fmtF 8 3 a.z
        ++ fmtF 6 2 a.occupancy ++ fmtF 6 2 a.temp_factor)
      ++ ("           " ++ (a.element ++ pyLJ 2 a.charge)) := by
    simp only [Cif.Atom.str, strAppend_assoc]
  have hl66 : ("ATOM  " ++ intRJ 5 a.serial ++ " " ++ atom_format a.name a.element
        ++ pyLJ 1 a.alt_loc ++ pyRJ 3 a.res_name ++ " " ++ pyLJ 1 a.chain_id
        ++ intRJ 4 a.res_seq ++ pyLJ 1 a.ins_code ++ "   "
        ++ fmtF 8 3 a.x ++ fmtF 8 3 a.y ++ fmtF 8 3 a.z
        ++ fmtF 6 2 a.occupancy ++ fmtF 6 2 a.temp_factor).length = 66 := by
    simp only [String.length_append, intRJ, pyRJ_length, pyLJ_length, ha0,
      l6, l1, l3, ha7, ha8, ha9, ha10, ha11]
    omega
  have h2 : Cif.HeterogenAtom.str b =
      ("HETATM" ++ intRJ 5 b.serial ++ " " ++ atom_format b.name b.element
        ++ pyLJ 1 b.alt_loc ++ pyRJ 3 b.res_name ++ " " ++ pyLJ 1 b.chain_id
        ++ intRJ 4 b.res_seq ++ pyLJ 1 b.ins_code ++ "   "
        ++ fmtF 8 3 b.x ++ fmtF 8 3 b.y ++ fmtF 8 3 b.z
        ++ fmtF 6 2 b.occupancy ++ fmtF 6 2 b.temp_factor)
      ++ ("          " ++ (pyRJ 2 b.element ++ pyLJ 2 b.charge)) := by
    simp only [Cif.HeterogenAtom.str, strAppend_assoc]
  have hl66b : ("HETATM" ++ intRJ 5 b.serial ++ " " ++ atom_format b.name b.element
        ++ pyLJ 1 b.alt_loc ++ pyRJ 3 b.res_name ++ " " ++ pyLJ 1 b.chain_id
        ++ intRJ 4 b.res_seq ++ pyLJ 1 b.ins_code ++ "   "
        ++ fmtF 8 3 b.x ++ fmtF 8 3 b.y ++ fmtF 8 3 b.z
        ++ fmtF 6 2 b.occupancy ++ fmtF 6 2 b.temp_factor).length = 66 := by
    simp only [String.length_append, intRJ, pyRJ_length, pyLJ_length, hb0,
      l6h, l1, l3, hb7, hb8, hb9, hb10, hb11]
    omega
  have hel2 : (pyRJ 2 b.element).length = 2 := by
    rw [pyRJ_length]
    omega
  have hch2 : (pyLJ 2 b.charge).length = 2 := by
    rw [pyLJ_length]
    omega
  have hchA : (pyLJ 2 a.charge).length = 2 := by
    rw [pyLJ_length]
    omega
  have hA1 : pySlice (Cif.Atom.str a) 66 77 = "           " := by
    rw [h1]
    exact (slice_of_append 77 hl66).trans (pyTake_append_left l11)
  refine ⟨⟨hA1, ?_, ?_, ?_⟩, ?_, ?_, ?_⟩
  · have hview := pyAt_eq_slice_get (Cif.Atom.str a) 66 10 77 (by norm_num)
    rw [show (76 : Nat) = 66 + 10 from rfl, hview, hA1]
    rfl
  · rw [h1, ← strAppend_assoc, slice_of_append (77 + a.element.length)
      (by rw [String.length_append, hl66, l11])]
    rw [show (77 + a.element.length - 77) = a.element.length from by omega]
    exact pyTake_append_left rfl
  · intro he2
    rw [h1, String.length_append, hl66, String.length_append, l11,
      String.length_append, he2, hchA]
  · rw [h2, String.length_append, hl66b, String.length_append, l10,
      String.length_append, hel2, hch2]
  · rw [h2, ← strAppend_assoc, slice_of_append 78
      (by rw [String.length_append, hl66b, l10])]
    exact pyTake_append_left hel2
  · rw [h2, ← strAppend_assoc, ← strAppend_assoc, slice_of_append 80
      (by rw [String.length_append, String.length_append, hl66b, l10, hel2])]
    exact pyTake_eq_self (by omega)

/-- Claim C10, witness: the column layout facts at a concrete nitrogen ATOM
record and a concrete iron HETATM record with nominal-width fields. -/
theorem c10_element_column_layout_witness :
    (pySlice (Cif.Atom.str ⟨1, "N", "", "ALA", "A", 1, "", ⟨11104, 3⟩, ⟨6134, 3⟩,
        ⟨-6504, 3⟩, ⟨100, 2⟩, ⟨0, 2⟩, "", "N", ""⟩) 66 77 = "           " ∧
      pyAt (Cif.Atom.str ⟨1, "N", "", "ALA", "A", 1, "", ⟨11104, 3⟩, ⟨6134, 3⟩,
        ⟨-6504, 3⟩, ⟨100, 2⟩, ⟨0, 2⟩, "", "N", ""⟩) 76 = some ' ' ∧
      pySlice (Cif.Atom.str ⟨1, "N", "", "ALA", "A", 1, "", ⟨11104, 3⟩, ⟨6134, 3⟩,
        ⟨-6504, 3⟩, ⟨100, 2⟩, ⟨0, 2⟩, "", "N", ""⟩) 77
        (77 + ("N" : String).length) = "N" ∧
      (("N" : String).length = 2 →
        (Cif.Atom.str ⟨1, "N", "", "ALA", "A", 1, "", ⟨11104, 3⟩, ⟨6134, 3⟩,
          ⟨-6504, 3⟩, ⟨100, 2⟩, ⟨0, 2⟩, "", "N", ""⟩).length = 81)) ∧
    ((Cif.HeterogenAtom.str ⟨9, "FE", "", "HEM", "B", 90, "", ⟨1000, 3⟩,
        ⟨2000, 3⟩, ⟨-3500, 3⟩, ⟨100, 2⟩, ⟨0, 2⟩, "", "FE", "2+"⟩).length = 80 ∧
      pySlice (Cif.HeterogenAtom.str ⟨9, "FE", "", "HEM", "B", 90, "", ⟨1000, 3⟩,
        ⟨2000, 3⟩, ⟨-3500, 3⟩, ⟨100, 2⟩, ⟨0, 2⟩, "", "FE", "2+"⟩) 76 78 =
        pyRJ 2 "FE" ∧
      pySlice (Cif.HeterogenAtom.str ⟨9, "FE", "", "HEM", "B", 90, "", ⟨1000, 3⟩,
        ⟨2000, 3⟩, ⟨-3500, 3⟩, ⟨100, 2⟩, ⟨0, 2⟩, "", "FE", "2+"⟩) 78 80 =
        pyLJ 2 "2+") :=
  c10_element_column_layout
    ⟨1, "N", "", "ALA", "A", 1, "", ⟨11104, 3⟩, ⟨6134, 3⟩, ⟨-6504, 3⟩,
      ⟨100, 2⟩, ⟨0, 2⟩, "", "N", ""⟩
    ⟨9, "FE", "", "HEM", "B", 90, "", ⟨1000, 3⟩, ⟨2000, 3⟩, ⟨-3500, 3⟩,
      ⟨100, 2⟩, ⟨0, 2⟩, "", "FE", "2+"⟩
    (by decide) (by decide) (by decide) (by decide) (by decide) (by decide)
    (by decide) (by decide) (by decide) (by decide) (by decide) (by decide)
    (by decide) (by decide) (by decide) (by decide) (by decide) (by decide)
    (by decide) (by decide) (by decide) (by decide) (by decide) (by decide)
    (by decide)
